import Mathlib

/-!
Verification of the pysnap client (src/pysnap/__init__.py) against its
natural-language specification.

The source is Python 2 code (it uses the Python-2-only idiom
`key.decode("base64")`), so a plain string literal such as "PK" denotes a
byte string: in `is_zip` the comparison `data[0:2] == "PK"` compares the
first two bytes of the buffer with the byte values 0x50 0x4B.

Modelling conventions:
- a byte sequence is a `List Nat` of byte values;
- the external collaborators from pysnap.utils (encrypt, decrypt,
  decrypt_story, make_media_id, request) are not part of the source under
  verification; methods that use them take them (or their results, such as
  the HTTP response body) as explicit parameters, so theorems quantify over
  every possible collaborator behaviour;
- mutable `self` state (username, auth_token, qr_path) is passed explicitly
  as a `Session` value and returned where a method mutates it;
- a method that issues an HTTP request returns the request it builds as an
  explicit record, so "no request is issued" is visible as the absence of a
  request in the result (an `Except.error` result carries no request);
- Python float time values are modelled as rationals; `int(round(x))` of
  Python 2 (round half away from zero, then exact truncation of an integral
  float) is `py2round`.
-/

/-- Byte sequences (Python `bytes`), as lists of byte values. -/
abbrev ByteSeq := List Nat

/-- MEDIA_IMAGE constant from the source. -/
def MEDIA_IMAGE : Nat := 0

/-- MEDIA_VIDEO constant from the source. -/
def MEDIA_VIDEO : Nat := 1

/-- MEDIA_VIDEO_NOAUDIO constant from the source. -/
def MEDIA_VIDEO_NOAUDIO : Nat := 2

/-- Python `is_video(data)`: `len(data) > 1 and data[0:2] == b"\x00\x00"`. -/
def is_video (data : ByteSeq) : Bool :=
  decide (1 < data.length) && (data.take 2 == [0x00, 0x00])

/-- Python `is_image(data)`: `len(data) > 1 and data[0:2] == b"\xFF\xD8"`. -/
def is_image (data : ByteSeq) : Bool :=
  decide (1 < data.length) && (data.take 2 == [0xFF, 0xD8])

/-- Python `is_zip(data)`: `len(data) > 1 and data[0:2] == "PK"`. In Python 2 the
literal "PK" is the byte string 0x50 0x4B, so the comparison is between the
first two bytes of the buffer and those byte values. -/
def is_zip (data : ByteSeq) : Bool :=
  decide (1 < data.length) && (data.take 2 == [0x50, 0x4B])

/-- Python `get_file_extension(media_type)` from the source. -/
def get_file_extension (media_type : Nat) : String :=
  if media_type == MEDIA_VIDEO || media_type == MEDIA_VIDEO_NOAUDIO then "mp4"
  else if media_type == MEDIA_IMAGE then "jpg"
  else ""

/-- Python `get_media_type(data)`: MEDIA_VIDEO if `is_video`, else MEDIA_IMAGE if
`is_image`, else Python `None` (modelled as `none`, the UNKNOWN outcome). -/
def get_media_type (data : ByteSeq) : Option Nat :=
  if is_video data then some MEDIA_VIDEO
  else if is_image data then some MEDIA_IMAGE
  else none

/-- The post-decryption validation predicate the spec describes: the buffer
starts with the two-byte image (0xFF 0xD8), video (0x00 0x00) or zip
(0x50 0x4B) signature. Used only to state theorems. -/
def startsWithSig (d : ByteSeq) : Prop :=
  (∃ r, d = 0xFF :: 0xD8 :: r) ∨ (∃ r, d = 0x00 :: 0x00 :: r) ∨
    (∃ r, d = 0x50 :: 0x4B :: r)

theorem is_image_iff (d : ByteSeq) :
    is_image d = true ↔ ∃ r, d = 0xFF :: 0xD8 :: r := by
  match d with
  | [] => simp [is_image]
  | [x] => simp [is_image]
  | x :: y :: rest =>
    simp only [is_image, Bool.and_eq_true, decide_eq_true_eq, beq_iff_eq,
      List.take_succ_cons, List.take_zero, List.length_cons]
    constructor
    · rintro ⟨-, h⟩
      obtain ⟨rfl, rfl, -⟩ : x = 0xFF ∧ y = 0xD8 ∧ True := by
        simpa using h
      exact ⟨rest, rfl⟩
    · rintro ⟨r, h⟩
      obtain ⟨rfl, rfl, rfl⟩ : x = 0xFF ∧ y = 0xD8 ∧ rest = r := by
        simpa using h
      exact ⟨by omega, rfl⟩

theorem is_video_iff (d : ByteSeq) :
    is_video d = true ↔ ∃ r, d = 0x00 :: 0x00 :: r := by
  match d with
  | [] => simp [is_video]
  | [x] => simp [is_video]
  | x :: y :: rest =>
    simp only [is_video, Bool.and_eq_true, decide_eq_true_eq, beq_iff_eq,
      List.take_succ_cons, List.take_zero, List.length_cons]
    constructor
    · rintro ⟨-, h⟩
      obtain ⟨rfl, rfl, -⟩ : x = 0x00 ∧ y = 0x00 ∧ True := by
        simpa using h
      exact ⟨rest, rfl⟩
    · rintro ⟨r, h⟩
      obtain ⟨rfl, rfl, rfl⟩ : x = 0x00 ∧ y = 0x00 ∧ rest = r := by
        simpa using h
      exact ⟨by omega, rfl⟩

theorem is_zip_iff (d : ByteSeq) :
    is_zip d = true ↔ ∃ r, d = 0x50 :: 0x4B :: r := by
  match d with
  | [] => simp [is_zip]
  | [x] => simp [is_zip]
  | x :: y :: rest =>
    simp only [is_zip, Bool.and_eq_true, decide_eq_true_eq, beq_iff_eq,
      List.take_succ_cons, List.take_zero, List.length_cons]
    constructor
    · rintro ⟨-, h⟩
      obtain ⟨rfl, rfl, -⟩ : x = 0x50 ∧ y = 0x4B ∧ True := by
        simpa using h
      exact ⟨rest, rfl⟩
    · rintro ⟨r, h⟩
      obtain ⟨rfl, rfl, rfl⟩ : x = 0x50 ∧ y = 0x4B ∧ rest = r := by
        simpa using h
      exact ⟨by omega, rfl⟩

theorem sig_or_iff (d : ByteSeq) :
    (is_image d || is_video d || is_zip d) = true ↔ startsWithSig d := by
  simp only [Bool.or_eq_true, startsWithSig, is_image_iff, is_video_iff,
    is_zip_iff, or_assoc]

/-- Python `get_story_blob(story_id, story_key, story_iv)`: fetch bq/story_blob,
decrypt the response body with `decrypt_story` on the base64-decoded key and
iv, return the plaintext if any of image/video/zip matches, else None.
`decrypt_story` and `b64decode` are the external collaborators and `respBody`
the HTTP response body; the request itself carries only `story_id` and adds
nothing to the validated result, so it is not modelled. -/
def get_story_blob (decrypt_story : ByteSeq → ByteSeq → ByteSeq → ByteSeq)
    (b64decode : String → ByteSeq) (respBody : ByteSeq)
    (story_key story_iv : String) : Option ByteSeq :=
  let data := decrypt_story respBody (b64decode story_key) (b64decode story_iv)
  if is_image data || is_video data || is_zip data then some data else none

/-- Python `get_chat_media(id, chatid, key, iv)`: fetch bq/chat_media, decrypt with
`decrypt_story` on the base64-decoded key and iv, validate as above. -/
def get_chat_media (decrypt_story : ByteSeq → ByteSeq → ByteSeq → ByteSeq)
    (b64decode : String → ByteSeq) (respBody : ByteSeq)
    (key iv : String) : Option ByteSeq :=
  let data := decrypt_story respBody (b64decode key) (b64decode iv)
  if is_image data || is_video data || is_zip data then some data else none

/-- Python `get_blob(snap_id)`: fetch ph/blob, decrypt the response body with the
account-level `decrypt`, return the plaintext if any of image/video/zip
matches, else None. -/
def get_blob (decrypt : ByteSeq → ByteSeq) (respBody : ByteSeq) :
    Option ByteSeq :=
  let data := decrypt respBody
  if is_image data || is_video data || is_zip data then some data else none

/-- Python `get_snaptag()`: fetch bq/snaptag_download, decrypt the response body,
return the plaintext if any of image/video/zip matches — otherwise return
`r.content`, the raw (still encrypted) response body, not None. -/
def get_snaptag (decrypt : ByteSeq → ByteSeq) (respBody : ByteSeq) : ByteSeq :=
  let data := decrypt respBody
  if is_image data || is_video data || is_zip data then data else respBody

/-- Python 2 `int(round(x))`: `round` rounds half away from zero to an
integral float, and `int` truncates that integral value exactly. -/
def py2round (x : ℚ) : Int :=
  if 0 ≤ x then ⌊x + (1 : ℚ) / 2⌋ else ⌈x - (1 : ℚ) / 2⌉

/-- The `params` dict of an event: always exactly `{id: snap_id}`. -/
structure EventParams where
  id : String
deriving DecidableEq

/-- One entry of the `events` list sent to bq/update_snaps. -/
structure SnapEvent where
  eventName : String
  params : EventParams
  ts : Int
deriving DecidableEq

/-- Per-snap state dict value: `{t: now, sv: view_duration}`, with the extra
key `c: 3` (present only for screenshots) modelled as an optional field. -/
structure SnapState where
  t : ℚ
  sv : Int
  c : Option Int
deriving DecidableEq

/-- The request `send_events` builds for bq/update_snaps: the events list and
the per-snap state mapping are serialized independently into the `events` and
`json` form fields. -/
structure EventsRequest where
  endpoint : String
  username : Option String
  events : List SnapEvent
  json : List (String × SnapState)
deriving DecidableEq

/-- Python `send_events(events, data)`: build the bq/update_snaps request and report
success iff the response body is empty. `respBody` is the HTTP response body
returned by the transport collaborator. -/
def send_events (username : Option String) (events : List SnapEvent)
    (data : List (String × SnapState)) (respBody : ByteSeq) :
    EventsRequest × Bool :=
  (⟨"bq/update_snaps", username, events, data⟩, respBody.isEmpty)

/-- Python `mark_viewed(snap_id, view_duration)`: at invocation time `now`, build
the per-snap state `{snap_id: {t: now, sv: view_duration}}` and the two
events SNAP_VIEW (ts = int(round(now)) - view_duration) and SNAP_EXPIRED
(ts = int(round(now))), then submit them via `send_events`. -/
def mark_viewed (username : Option String) (now : ℚ) (snap_id : String)
    (view_duration : Int) (respBody : ByteSeq) : EventsRequest × Bool :=
  let data := [(snap_id, SnapState.mk now view_duration none)]
  let events := [
    SnapEvent.mk "SNAP_VIEW" ⟨snap_id⟩ (py2round now - view_duration),
    SnapEvent.mk "SNAP_EXPIRED" ⟨snap_id⟩ (py2round now)]
  send_events username events data respBody

/-- Python `mark_screenshot(snap_id, view_duration)`: at invocation time `now`,
build the per-snap state `{snap_id: {t: now, sv: view_duration, c: 3}}` and
the single event SNAP_SCREENSHOT (ts = int(round(now)) - view_duration),
then submit them via `send_events`. -/
def mark_screenshot (username : Option String) (now : ℚ) (snap_id : String)
    (view_duration : Int) (respBody : ByteSeq) : EventsRequest × Bool :=
  let data := [(snap_id, SnapState.mk now view_duration (some 3))]
  let events := [
    SnapEvent.mk "SNAP_SCREENSHOT" ⟨snap_id⟩ (py2round now - view_duration)]
  send_events username events data respBody

/-- The mutable session state held on the client object: username,
auth_token, qr_path, each None until set. -/
structure Session where
  username : Option String
  auth_token : Option String
  qr_path : Option String
deriving DecidableEq

/-- The session as constructed by `__init__`: all three fields None. -/
def Session.empty : Session := ⟨none, none, none⟩

/-- Python `_unset_auth()`: sets `self.username = None` and `self.auth_token = None`.
It does not touch `self.qr_path`. -/
def unset_auth (s : Session) : Session :=
  { s with username := none, auth_token := none }

/-- The request `logout` builds for ph/logout. -/
structure LogoutRequest where
  endpoint : String
  username : Option String
deriving DecidableEq

/-- Python `logout()`: issue the ph/logout request and return whether the response
body is empty. The method body contains no assignment to `self`, so the
session state is returned unchanged. -/
def logout (s : Session) (respBody : ByteSeq) :
    Session × LogoutRequest × Bool :=
  (s, ⟨"ph/logout", s.username⟩, respBody.isEmpty)

/-- The errors `upload` raises (both ValueError in the source; the spec names
them NotFound and UnrecognizedMediaType). -/
inductive UploadError where
  | notFound (path : String)
  | unrecognizedMediaType
deriving DecidableEq

/-- The request `upload` builds for ph/upload, including the encrypted file
content sent in the `files` part. -/
structure UploadRequest where
  endpoint : String
  username : Option String
  media_id : String
  type : Nat
  files_data : ByteSeq
deriving DecidableEq

/-- Python `upload(path)`: raise NotFound if the path does not resolve to a file,
read the content, raise UnrecognizedMediaType if `get_media_type` is None,
else generate a media id, encrypt, issue the ph/upload request, and return
the media id if the response body is empty, else None. The filesystem is the
map `fs`, `encrypt` and the generated id `mkId` stand for the collaborators,
and `respBody` is the HTTP response body; an error result carries no request,
so both failures happen before any network call. -/
def upload (fs : String → Option ByteSeq) (encrypt : ByteSeq → ByteSeq)
    (mkId : String) (username : Option String) (respBody : ByteSeq)
    (path : String) : Except UploadError (UploadRequest × Option String) :=
  match fs path with
  | none => Except.error (UploadError.notFound path)
  | some data =>
    match get_media_type data with
    | none => Except.error UploadError.unrecognizedMediaType
    | some media_type =>
      Except.ok
        (⟨"ph/upload", username, mkId, media_type, encrypt data⟩,
         if respBody.isEmpty then some mkId else none)

/-- Python runtime errors the embedding distinguishes. -/
inductive PyErr where
  | typeError
deriving DecidableEq

/-- A Python value at a call site: either an integer or the module-level
`time` clock function imported from the time module. -/
inductive PyVal where
  | int (n : Int)
  | builtin_time
deriving DecidableEq

/-- Calling a Python value with no arguments: the clock returns the current
time; calling an integer raises TypeError (int object is not callable). -/
def pyCall (clockNow : ℚ) : PyVal → Except PyErr ℚ
  | PyVal.builtin_time => Except.ok clockNow
  | PyVal.int _ => Except.error PyErr.typeError

/-- The request `send_to_story` would build for bq/post_story. -/
structure StoryRequest where
  endpoint : String
  username : Option String
  timestamp : ℚ
  media_id : String
  client_id : String
  caption_text_display : String
  zipped : String
  type : Nat
  time : Int
deriving DecidableEq

/-- Python `send_to_story(media_id, time=5)`: the parameter named `time` shadows the
module-level clock, so the dict entry `timestamp: time() * 1000` calls the
integer bound to `time`, which raises TypeError while the request dict is
being built — before `self._request` can be invoked (an error result carries
no request). -/
def send_to_story (clockNow : ℚ) (username : Option String)
    (media_id : String) (time : Int) : Except PyErr (StoryRequest × ByteSeq) :=
  match pyCall clockNow (PyVal.int time) with
  | Except.error e => Except.error e
  | Except.ok ts =>
    Except.ok (⟨"bq/post_story", username, ts * 1000, media_id, media_id,
      "", "0", 0, time⟩, [])

/-- The request `retry_post_story` would build for bq/retry_post_story. -/
structure RetryStoryRequest where
  endpoint : String
  username : Option String
  timestamp : ℚ
  media_id : String
  client_id : String
  caption_text_display : String
  zipped : Nat
  type : Option Nat
  time : Int
  files_data : ByteSeq
deriving DecidableEq

/-- Python `retry_post_story(data, caption, time=10)`: generates a media id, then
builds the request dict; as in `send_to_story` the parameter named `time`
shadows the clock, so `timestamp: time() * 1000` raises TypeError before the
request can be issued. -/
def retry_post_story (clockNow : ℚ) (encrypt : ByteSeq → ByteSeq)
    (mkId : String) (username : Option String) (data : ByteSeq)
    (caption : String) (time : Int) : Except PyErr RetryStoryRequest :=
  match pyCall clockNow (PyVal.int time) with
  | Except.error e => Except.error e
  | Except.ok ts =>
    Except.ok ⟨"bq/retry_post_story", username, ts * 1000, mkId, mkId,
      caption, if is_zip data then 1 else 0, get_media_type data,
      time * 1000, encrypt data⟩

theorem validate_some (d : ByteSeq) (h : startsWithSig d) :
    (if is_image d || is_video d || is_zip d then some d else none) = some d :=
  if_pos ((sig_or_iff d).mpr h)

theorem validate_none (d : ByteSeq) (h : ¬ startsWithSig d) :
    (if is_image d || is_video d || is_zip d then some d else none) = none :=
  if_neg (fun hc => h ((sig_or_iff d).mp hc))

/-- C1: get_blob, get_story_blob and get_chat_media return the decrypted
bytes when at least one of the image (0xFF 0xD8), video (0x00 0x00) or zip
(0x50 0x4B) two-byte signatures starts those bytes, and None otherwise; in
particular get_blob returns the bytes, not None, when the decrypted bytes
start with 0x50 0x4B. The decryption collaborators are quantified, so this
covers every decrypted byte sequence. -/
theorem downloads_validate_decrypted_bytes :
    ∀ (decrypt : ByteSeq → ByteSeq)
      (decrypt_story : ByteSeq → ByteSeq → ByteSeq → ByteSeq)
      (b64 : String → ByteSeq) (body : ByteSeq) (k iv : String),
      (startsWithSig (decrypt body) →
        get_blob decrypt body = some (decrypt body)) ∧
      (¬ startsWithSig (decrypt body) → get_blob decrypt body = none) ∧
      (startsWithSig (decrypt_story body (b64 k) (b64 iv)) →
        get_story_blob decrypt_story b64 body k iv =
          some (decrypt_story body (b64 k) (b64 iv))) ∧
      (¬ startsWithSig (decrypt_story body (b64 k) (b64 iv)) →
        get_story_blob decrypt_story b64 body k iv = none) ∧
      (startsWithSig (decrypt_story body (b64 k) (b64 iv)) →
        get_chat_media decrypt_story b64 body k iv =
          some (decrypt_story body (b64 k) (b64 iv))) ∧
      (¬ startsWithSig (decrypt_story body (b64 k) (b64 iv)) →
        get_chat_media decrypt_story b64 body k iv = none) ∧
      (∀ r, decrypt body = 0x50 :: 0x4B :: r →
        get_blob decrypt body = some (0x50 :: 0x4B :: r)) := by
  intro decrypt decrypt_story b64 body k iv
  refine ⟨fun h => ?_, fun h => ?_, fun h => ?_, fun h => ?_, fun h => ?_,
    fun h => ?_, fun r h => ?_⟩
  · simpa only [get_blob] using validate_some _ h
  · simpa only [get_blob] using validate_none _ h
  · simpa only [get_story_blob] using validate_some _ h
  · simpa only [get_story_blob] using validate_none _ h
  · simpa only [get_chat_media] using validate_some _ h
  · simpa only [get_chat_media] using validate_none _ h
  · have hs : startsWithSig (decrypt body) := Or.inr (Or.inr ⟨r, h⟩)
    rw [← h]
    simpa only [get_blob] using validate_some _ hs

/-- Concrete check of downloads_validate_decrypted_bytes: a decryption
yielding bytes that start with 0x50 0x4B makes get_blob return them. -/
theorem downloads_validate_decrypted_bytes_witness :
    get_blob (fun _ => [0x50, 0x4B, 0x01]) [0x09] = some [0x50, 0x4B, 0x01] :=
  (downloads_validate_decrypted_bytes (fun _ => [0x50, 0x4B, 0x01])
    (fun _ _ _ => []) (fun _ => []) [0x09] "" "").2.2.2.2.2.2 [0x01] rfl

/-- C2: is_zip is true exactly on buffers of length at least 2 whose first
two bytes are 0x50 0x4B (the byte values of the ASCII characters P and K);
stated over arbitrary byte lists, so it holds on raw binary buffers. -/
theorem is_zip_zip_signature :
    ∀ (d : ByteSeq),
      (is_zip d = true ↔ 2 ≤ d.length ∧ d.take 2 = [0x50, 0x4B]) ∧
      (is_zip d = true ↔ ∃ r, d = 0x50 :: 0x4B :: r) := by
  intro d
  constructor
  · simp only [is_zip, Bool.and_eq_true, decide_eq_true_eq, beq_iff_eq]
    exact Iff.rfl
  · exact is_zip_iff d

/-- Concrete check of is_zip_zip_signature on a raw binary buffer. -/
theorem is_zip_zip_signature_witness :
    is_zip [0x50, 0x4B, 0xFF] = true ∧ is_zip [0x50] = false :=
  ⟨(is_zip_zip_signature [0x50, 0x4B, 0xFF]).2.mpr ⟨[0xFF], rfl⟩, by decide⟩

/-- C3: for every integer duration argument, send_to_story and
retry_post_story raise TypeError: the parameter named time shadows the
imported clock, and evaluating the dict entry timestamp applies that integer
as a zero-argument call. The error result carries no request, so no HTTP
request is issued, and neither operation can return a response body. -/
theorem story_posts_raise_typeerror :
    ∀ (clockNow : ℚ) (u : Option String) (media_id : String) (t : Int)
      (encrypt : ByteSeq → ByteSeq) (mkId : String) (data : ByteSeq)
      (caption : String),
      send_to_story clockNow u media_id t = Except.error PyErr.typeError ∧
      retry_post_story clockNow encrypt mkId u data caption t =
        Except.error PyErr.typeError := by
  intro clockNow u media_id t encrypt mkId data caption
  exact ⟨rfl, rfl⟩

/-- C4: upload fails with NotFound when the path resolves to no file and with
UnrecognizedMediaType when the content classifies as neither video nor image,
in both cases returning an error that carries no request; otherwise it issues
the ph/upload request and returns the generated media id exactly when the
response body is empty and None otherwise. -/
theorem upload_spec :
    ∀ (fs : String → Option ByteSeq) (encrypt : ByteSeq → ByteSeq)
      (mkId : String) (u : Option String) (respBody : ByteSeq) (path : String),
      (fs path = none →
        upload fs encrypt mkId u respBody path =
          Except.error (UploadError.notFound path)) ∧
      (∀ data, fs path = some data → get_media_type data = none →
        upload fs encrypt mkId u respBody path =
          Except.error UploadError.unrecognizedMediaType) ∧
      (∀ data mt, fs path = some data → get_media_type data = some mt →
        upload fs encrypt mkId u respBody path =
          Except.ok (⟨"ph/upload", u, mkId, mt, encrypt data⟩,
            if respBody.isEmpty then some mkId else none)) := by
  intro fs encrypt mkId u respBody path
  refine ⟨fun h => ?_, fun data h1 h2 => ?_, fun data mt h1 h2 => ?_⟩
  · simp [upload, h]
  · simp [upload, h1, h2]
  · simp [upload, h1, h2]

/-- Concrete check of upload_spec: an existing JPEG file with an empty upload
response body yields the generated media id. -/
theorem upload_spec_witness :
    upload (fun p => if p = "a.jpg" then some [0xFF, 0xD8] else none) id
      "mid" (some "u") [] "a.jpg" =
      Except.ok (⟨"ph/upload", some "u", "mid", MEDIA_IMAGE, [0xFF, 0xD8]⟩,
        some "mid") := by
  have h := (upload_spec (fun p => if p = "a.jpg" then some [0xFF, 0xD8] else none)
    id "mid" (some "u") [] "a.jpg").2.2 [0xFF, 0xD8] MEDIA_IMAGE
    (by simp) (by decide)
  simpa using h

/-- C5: mark_viewed builds exactly the two events SNAP_VIEW (at
int(round(now)) - duration) and SNAP_EXPIRED (at int(round(now))), in that
order, plus the state entry {snap_id: {t: now, sv: duration}}, submits them
via send_events, and the two timestamps differ by exactly the duration. -/
theorem mark_viewed_spec :
    ∀ (u : Option String) (now : ℚ) (s : String) (d : Int) (body : ByteSeq),
      mark_viewed u now s d body =
        send_events u
          [SnapEvent.mk "SNAP_VIEW" ⟨s⟩ (py2round now - d),
           SnapEvent.mk "SNAP_EXPIRED" ⟨s⟩ (py2round now)]
          [(s, SnapState.mk now d none)] body ∧
      py2round now - (py2round now - d) = d := by
  intro u now s d body
  exact ⟨rfl, by ring⟩

/-- C6 counterexample: at the session (username u, auth_token a, qr_path qr),
logout leaves the state non-empty (in fact unchanged) and _unset_auth also
leaves it non-empty (qr_path survives), refuting the claim that both reset
the whole session to empty. -/
theorem logout_unset_cex :
    (logout ⟨some "u", some "a", some "qr"⟩ []).1 ≠ Session.empty ∧
    unset_auth ⟨some "u", some "a", some "qr"⟩ ≠ Session.empty := by
  decide

/-- C6 amended: logout issues its request and reports empty-body success
without modifying any session field, and _unset_auth resets username and
auth_token to None while leaving qr_path unchanged. -/
theorem logout_unset_state :
    ∀ (s : Session) (body : ByteSeq),
      (logout s body).1 = s ∧
      (unset_auth s).username = none ∧
      (unset_auth s).auth_token = none ∧
      (unset_auth s).qr_path = s.qr_path := by
  intro s body
  exact ⟨rfl, rfl, rfl, rfl⟩

/-- C7: mark_screenshot builds the state entry
{snap_id: {t: now, sv: duration, c: 3}} and exactly one event
SNAP_SCREENSHOT at int(round(now)) - duration, submitted via send_events. -/
theorem mark_screenshot_spec :
    ∀ (u : Option String) (now : ℚ) (s : String) (d : Int) (body : ByteSeq),
      mark_screenshot u now s d body =
        send_events u
          [SnapEvent.mk "SNAP_SCREENSHOT" ⟨s⟩ (py2round now - d)]
          [(s, SnapState.mk now d (some 3))] body ∧
      (mark_screenshot u now s d body).1.events.length = 1 := by
  intro u now s d body
  exact ⟨rfl, rfl⟩

/-- C8: get_media_type returns MEDIA_VIDEO exactly when is_video holds,
MEDIA_IMAGE exactly when is_video fails and is_image holds (the video check
precedes the image check), and None (the UNKNOWN outcome) exactly when both
fail; and it is a pure function of the byte sequence. -/
theorem get_media_type_spec :
    ∀ (B C : ByteSeq),
      (B = C → get_media_type B = get_media_type C) ∧
      (get_media_type B = some MEDIA_VIDEO ↔ is_video B = true) ∧
      (get_media_type B = some MEDIA_IMAGE ↔
        is_video B = false ∧ is_image B = true) ∧
      (get_media_type B = none ↔ is_video B = false ∧ is_image B = false) := by
  intro B C
  refine ⟨fun h => by rw [h], ?_, ?_, ?_⟩ <;>
    cases hv : is_video B <;> cases hi : is_image B <;>
      simp [get_media_type, hv, hi, MEDIA_VIDEO, MEDIA_IMAGE]

/-- Concrete check of get_media_type_spec: a video-signature buffer maps to
MEDIA_VIDEO. -/
theorem get_media_type_spec_witness :
    get_media_type [0x00, 0x00, 0x05] = some MEDIA_VIDEO :=
  (get_media_type_spec [0x00, 0x00, 0x05] []).2.1.mpr (by decide)

/-- C9: any buffer extending the two-byte video signature satisfies is_video,
any buffer extending the two-byte image signature satisfies is_image, and
both predicates reject the empty buffer and every one-byte buffer. -/
theorem signature_prefix_spec :
    ∀ (X : ByteSeq) (b : Nat),
      is_video (0x00 :: 0x00 :: X) = true ∧
      is_image (0xFF :: 0xD8 :: X) = true ∧
      is_video [] = false ∧ is_image [] = false ∧
      is_video [b] = false ∧ is_image [b] = false := by
  intro X b
  refine ⟨?_, ?_, by decide, by decide, ?_, ?_⟩
  · simp [is_video]
  · simp [is_image]
  · simp [is_video]
  · simp [is_image]

/-- C10: when the decrypted snaptag bytes match none of the three signatures,
get_snaptag returns the raw (still encrypted) response body, while get_blob
on the same decryption outcome returns None. -/
theorem get_snaptag_raw_on_invalid :
    ∀ (decrypt : ByteSeq → ByteSeq) (body : ByteSeq),
      ¬ startsWithSig (decrypt body) →
      get_snaptag decrypt body = body ∧ get_blob decrypt body = none := by
  intro decrypt body h
  constructor
  · have hb : ¬ ((is_image (decrypt body) || is_video (decrypt body) ||
        is_zip (decrypt body)) = true) :=
      fun hc => h ((sig_or_iff (decrypt body)).mp hc)
    simp only [get_snaptag]
    exact if_neg hb
  · simpa only [get_blob] using validate_none _ h

/-- Concrete check of get_snaptag_raw_on_invalid: decrypted bytes 0x01 0x02
match no signature, so get_snaptag returns the raw body and get_blob None. -/
theorem get_snaptag_raw_on_invalid_witness :
    get_snaptag (fun _ => [0x01, 0x02]) [0x09] = [0x09] ∧
    get_blob (fun _ => [0x01, 0x02]) [0x09] = none :=
  get_snaptag_raw_on_invalid (fun _ => [0x01, 0x02]) [0x09]
    (by simp [startsWithSig])
